import Mathlib

/-!
Shallow embedding of the rag-mcp-server core (crawl engine, retrieval
pipeline, ingest path, result cache) and proofs about it.  Each definition
mirrors one function of the TypeScript source; asynchronous effects are
modelled by explicit state passing, floats by rationals, fallible calls by
Except, and external collaborators (HTTP fetch, URL parsing, the embedding
provider, the vector store) by function-valued parameters.
-/

namespace RagMcp

/-- JS String.prototype.includes, on character lists: does the needle occur
as a contiguous segment of the haystack? -/
def containsSub : List Char → List Char → Bool
  | pat, [] => pat.isEmpty
  | pat, c :: tl => pat.isPrefixOf (c :: tl) || containsSub pat tl

/-- url.includes(path) from the path-filter checks in crawlWebsite. -/
def strIncludes (s pat : String) : Bool :=
  containsSub pat.data s.data

/-- ScrapedPage from FirecrawlService.ts: one fetched-and-extracted page.
The four optional metadata attributes are inlined as fields. -/
structure ScrapedPage where
  url : String
  title : String
  content : String
  description : Option String := none
  keywords : Option (List String) := none
  author : Option String := none
  publishedDate : Option String := none
  links : List String := []
deriving DecidableEq

/-- A queue item of crawlWebsite: { url, depth }. -/
structure CrawlTask where
  url : String
  depth : Nat
deriving DecidableEq

/-- The external world seen by the crawl engine.  pages u models the outcome
of scrapePage(u) (none = any fetch/parse failure, which scrapePage swallows
and turns into null); hostOf u models new URL(u).hostname (none = the URL
constructor throws).  url_wf: scrapePage returns the requested url in its
url field.  fetch_wf: axios.get only succeeds on URLs the URL parser
accepts, so a fetched page always has a hostname. -/
structure Web where
  pages : String → Option ScrapedPage
  hostOf : String → Option String
  url_wf : ∀ u p, pages u = some p → p.url = u
  fetch_wf : ∀ u p, pages u = some p → (hostOf u).isSome

/-- ScrapeOptions with the destructuring defaults of crawlWebsite. -/
structure ScrapeOptions where
  maxDepth : Nat := 2
  maxPages : Nat := 50
  includePaths : List String := []
  excludePaths : List String := []

/-- The mutable state of the FirecrawlService singleton: its private
visitedUrls field. -/
structure CrawlerState where
  visitedUrls : List String
deriving DecidableEq

/-- The same-origin link selection of crawlWebsite lines 158-172: keep the
outbound links whose hostname equals the current page's hostname.  The
none branch is unreachable when a page was actually fetched for url
(Web.fetch_wf), matching the source where new URL(url) is only evaluated
after a successful scrape. -/
def sameHostLinks (web : Web) (url : String) (links : List String) : List String :=
  match web.hostOf url with
  | none => []
  | some h => links.filter (fun l => web.hostOf l == some h)

/-- The while-loop of crawlWebsite, with each emitted page annotated by the
depth of the CrawlTask it was dequeued with (the annotation is erased by
crawlWebsite).  fuel bounds the number of iterations; the source loop
terminates on every finite link graph, and every theorem below holds for
every fuel.  The 1-second rate-limit delay has no observable effect here
and is dropped. -/
def crawlLoopD (web : Web) (maxDepth maxPages : Nat) (inc exc : List String) :
    Nat → List CrawlTask → List String → List (Nat × ScrapedPage) →
    List (Nat × ScrapedPage) × List String
  | 0, _, visited, results => (results, visited)
  | _ + 1, [], visited, results => (results, visited)
  | fuel + 1, t :: rest, visited, results =>
    if results.length < maxPages then
      if t.url ∈ visited then
        crawlLoopD web maxDepth maxPages inc exc fuel rest visited results
      else if maxDepth < t.depth then
        crawlLoopD web maxDepth maxPages inc exc fuel rest visited results
      else if exc.any (fun p => strIncludes t.url p) then
        crawlLoopD web maxDepth maxPages inc exc fuel rest visited results
      else if 0 < inc.length ∧ inc.any (fun p => strIncludes t.url p) = false then
        crawlLoopD web maxDepth maxPages inc exc fuel rest visited results
      else
        let visited' := t.url :: visited
        match web.pages t.url with
        | none => crawlLoopD web maxDepth maxPages inc exc fuel rest visited' results
        | some page =>
          let results' := results ++ [(t.depth, page)]
          let queue' :=
            if t.depth < maxDepth then
              rest ++ (sameHostLinks web t.url page.links).map (fun l => CrawlTask.mk l (t.depth + 1))
            else rest
          crawlLoopD web maxDepth maxPages inc exc fuel queue' visited' results'
    else (results, visited)

/-- FirecrawlService.crawlWebsite: clears the service's visitedUrls field,
runs the BFS loop from { url: startUrl, depth: 0 }, returns the emitted
pages and leaves the visited set in the service state.  The st parameter is
the prior service state; its contents are discarded by the clear() call. -/
def crawlWebsite (web : Web) (fuel : Nat) (startUrl : String) (options : ScrapeOptions)
    (_st : CrawlerState) : List ScrapedPage × CrawlerState :=
  let r := crawlLoopD web options.maxDepth options.maxPages options.includePaths
    options.excludePaths fuel [CrawlTask.mk startUrl 0] [] []
  (r.1.map Prod.snd, CrawlerState.mk r.2)

/-- EmbeddingResult from EmbeddingService.ts; vector entries as rationals. -/
structure EmbeddingResult where
  embedding : List ℚ
  dimensions : Nat
  model : String
deriving DecidableEq

/-- The JS test !text || text.trim().length === 0: the string has no
non-whitespace character. -/
def isBlank (s : String) : Bool := s.data.all (fun c => c.isWhitespace)

/-- EmbeddingService.generateEmbedding: reject empty text before touching
the active provider; otherwise defer to it.  Both the local model and the
OpenAI API are one capability, String to an EmbeddingResult or a failure. -/
def generateEmbedding (provider : String → Except String EmbeddingResult)
    (text : String) : Except String EmbeddingResult :=
  if isBlank text then Except.error "Text cannot be empty" else provider text

/-- The chunked batch loop of EmbeddingService.generateEmbeddings: one
embedding per text, in input order, and any per-text failure rejects the
whole batch.  The MAX_BATCH_SIZE chunk boundaries only group the work and
cannot change this result, so the chunking is not represented. -/
def embedEach (provider : String → Except String EmbeddingResult) :
    List String → Except String (List EmbeddingResult)
  | [] => Except.ok []
  | t :: ts =>
    match generateEmbedding provider t with
    | Except.error e => Except.error e
    | Except.ok r =>
      match embedEach provider ts with
      | Except.error e => Except.error e
      | Except.ok rs => Except.ok (r :: rs)

/-- EmbeddingService.generateEmbeddings lines 114-145: an empty texts array
is rejected before either provider is consulted. -/
def generateEmbeddings (provider : String → Except String EmbeddingResult)
    (texts : List String) : Except String (List EmbeddingResult) :=
  if texts.isEmpty then Except.error "Texts array cannot be empty"
  else embedEach provider texts

/-- A row of rag.documents (DatabaseService.ts): title is populated from
metadata?.['title'] || null at insertion. -/
structure StoredDocument where
  id : Nat
  content : String
  metadata : List (String × String)
  sourceUrl : Option String
  title : Option String
deriving DecidableEq

/-- A row of rag.embeddings. -/
structure StoredEmbedding where
  documentId : Nat
  embedding : List ℚ
deriving DecidableEq

/-- The vector store: the two tables plus the SERIAL id counter. -/
structure DBState where
  nextId : Nat
  documents : List StoredDocument
  embeddings : List StoredEmbedding
deriving DecidableEq

/-- Input of RagAgent.addDocument / addDocuments; metadata modelled as an
ordered string-to-string mapping (the claims never inspect the values). -/
structure DocumentInput where
  content : String
  metadata : Option (List (String × String)) := none
  source : Option String := none
deriving DecidableEq

/-- One element of the batchInsertDocuments payload. -/
structure DocumentWithEmbedding where
  content : String
  embedding : List ℚ
  metadata : Option (List (String × String)) := none
  source : Option String := none
deriving DecidableEq

/-- metadata?.['title'] || null from the document INSERT: absent metadata or
an empty title string both store NULL. -/
def titleOf (metadata : Option (List (String × String))) : Option String :=
  match metadata with
  | none => none
  | some m =>
    match m.lookup "title" with
    | none => none
    | some t => if t.isEmpty then none else some t

/-- DatabaseService.batchInsertDocuments lines 155-198: one transaction, a
loop of document INSERT ... RETURNING id followed by the embedding INSERT,
ids collected in input order.  The model's DB never fails, so the COMMIT
path is the only one; the ROLLBACK path appears in addDocuments, where an
embedding failure leaves the state untouched. -/
def mkStoredDocument (docId : Nat) (doc : DocumentWithEmbedding) : StoredDocument :=
  { id := docId, content := doc.content, metadata := doc.metadata.getD [],
    sourceUrl := doc.source, title := titleOf doc.metadata }

def batchInsertDocuments : DBState → List DocumentWithEmbedding → List Nat × DBState
  | db, [] => ([], db)
  | db, doc :: rest =>
    let docId := db.nextId
    let db' : DBState :=
      { nextId := docId + 1,
        documents := db.documents ++ [mkStoredDocument docId doc],
        embeddings := db.embeddings ++ [StoredEmbedding.mk docId doc.embedding] }
    let r := batchInsertDocuments db' rest
    (docId :: r.1, r.2)

/-- RagAgent.addDocuments lines 642-674: embed all contents, pair each
document with embeddings[index] positionally, then batch insert.  The
source indexes embeddings with a non-null assertion; generateEmbeddings
returns exactly one result per text (embedEach_length below), so the
positional pairing is the zipWith.  On an embedding failure the error
propagates and the store is never touched. -/
def addDocuments (provider : String → Except String EmbeddingResult) (db : DBState)
    (documents : List DocumentInput) : Except String (List Nat) × DBState :=
  match generateEmbeddings provider (documents.map (fun d => d.content)) with
  | Except.error e => (Except.error e, db)
  | Except.ok embeddings =>
    let documentsWithEmbeddings : List DocumentWithEmbedding :=
      List.zipWith (fun (doc : DocumentInput) (er : EmbeddingResult) =>
        ({ content := doc.content, embedding := er.embedding,
           metadata := doc.metadata, source := doc.source } : DocumentWithEmbedding))
        documents embeddings
    let r := batchInsertDocuments db documentsWithEmbeddings
    (Except.ok r.1, r.2)

/-- A row of a similarity search answer (DatabaseService.searchSimilar). -/
structure SimilarityResult where
  id : Nat
  content : String
  metadata : Option (List (String × String)) := none
  source : Option String := none
  similarity : ℚ
  distance : ℚ
deriving DecidableEq

/-- The metadata block of a RagQueryResult. -/
structure RagQueryMetadata where
  totalResults : Nat
  averageSimilarity : ℚ
  queryEmbeddingDimensions : Nat
deriving DecidableEq

/-- RagAgent's RagQueryResult. -/
structure RagQueryResult where
  query : String
  results : List SimilarityResult
  context : String
  citations : List String
  metadata : RagQueryMetadata
deriving DecidableEq

/-- RagQueryOptions with the destructuring defaults of RagAgent.query (the
topK default of 5 is the SIMILARITY_SEARCH_K fallback). -/
structure RagQueryOptions where
  topK : Nat := 5
  similarityThreshold : ℚ := 7/10
  includeMetadata : Bool := true

/-- The Redis result cache, keyed by the strings of generateKey.  A cons
models setEx (lookup finds the newest entry first). -/
abbrev Cache := List (String × RagQueryResult)

/-- RedisCacheService.generateKey: rag:prefix:part1:part2:... -/
def generateKey (pre : String) (parts : List String) : String :=
  "rag:" ++ pre ++ ":" ++ String.intercalate ":" parts

/-- The external collaborators of the query path: the embedding provider
and DatabaseService.searchSimilar(queryEmbedding, limit, threshold). -/
structure RagEnv where
  provider : String → Except String EmbeddingResult
  searchSimilar : List ℚ → Nat → ℚ → List SimilarityResult

/-- Ghost trace of the I/O a query run performs, in order: a Redis GET, a
provider embedding call, a vector-store search, a Redis SET. -/
inductive QueryEvent where
  | cacheGet (key : String)
  | embed (text : String)
  | search (topK : Nat) (threshold : ℚ)
  | cacheSet (key : String)
deriving DecidableEq

/-- The first-occurrence dedup filter of RagAgent.extractCitations. -/
def uniqueFirst (l : List String) : List String :=
  l.foldl (fun acc v => if acc.contains v then acc else acc ++ [v]) []

/-- RagAgent.extractCitations: source URLs of the matches that have one,
deduplicated keeping first occurrences. -/
def extractCitations (results : List SimilarityResult) : List String :=
  uniqueFirst ((results.filter (fun r => r.source.isSome)).map (fun r => r.source.getD ""))

/-- The optional source suffix of one context block. -/
def sourceTag (s : Option String) : String :=
  match s with
  | some src => " [Source: " ++ src ++ "]"
  | none => ""

/-- RagAgent.buildContext lines 701-712. -/
def buildContext (results : List SimilarityResult) : String :=
  if results.length = 0 then
    "No relevant context found."
  else
    String.intercalate "\n\n" (results.enum.map (fun ir =>
      "[" ++ toString (ir.1 + 1) ++ "] " ++ ir.2.content ++ sourceTag ir.2.source))

/-- RagAgent.query lines 542-609: cache lookup on the (queryText, topK)
key, then on a miss embed, search, assemble, cache and return; the
surrounding try/catch prefixes failures with 'RAG query failed: '.  The
third component is the ghost I/O trace; note the empty-text rejection
raised inside generateEmbedding happens after the cache GET but before the
provider is called, hence the embedTrace guard. -/
def query (env : RagEnv) (cache : Cache) (queryText : String)
    (options : RagQueryOptions) :
    Except String RagQueryResult × Cache × List QueryEvent :=
  let topK := options.topK
  let similarityThreshold := options.similarityThreshold
  let includeMetadata := options.includeMetadata
  let cacheKey := generateKey "query" [queryText, toString topK]
  match cache.lookup cacheKey with
  | some cached => (Except.ok cached, cache, [QueryEvent.cacheGet cacheKey])
  | none =>
    let embedTrace := if isBlank queryText then [] else [QueryEvent.embed queryText]
    match generateEmbedding env.provider queryText with
    | Except.error e =>
      (Except.error ("RAG query failed: " ++ e), cache, QueryEvent.cacheGet cacheKey :: embedTrace)
    | Except.ok er =>
      let results := env.searchSimilar er.embedding topK similarityThreshold
      let context := buildContext results
      let citations := extractCitations results
      let averageSimilarity : ℚ :=
        if 0 < results.length then
          (results.foldl (fun s r => s + r.similarity) 0) / (results.length : ℚ)
        else 0
      let result : RagQueryResult :=
        { query := queryText
          results := if includeMetadata then results
                     else results.map (fun r => { r with metadata := none })
          context := context
          citations := citations
          metadata := { totalResults := results.length,
                        averageSimilarity := averageSimilarity,
                        queryEmbeddingDimensions := er.dimensions } }
      (Except.ok result, (cacheKey, result) :: cache,
        [QueryEvent.cacheGet cacheKey, QueryEvent.embed queryText,
         QueryEvent.search topK similarityThreshold, QueryEvent.cacheSet cacheKey])

/-- FirecrawlService.pagesToDocuments: content is title, blank line, body;
metadata collects title, url and the page's present attributes (the
keywords array is joined to one string here, a detail no claim inspects). -/
def pageMetadata (page : ScrapedPage) : List (String × String) :=
  [("title", page.title), ("url", page.url)]
  ++ (match page.description with | some d => [("description", d)] | none => [])
  ++ (match page.keywords with | some ks => [("keywords", String.intercalate "," ks)] | none => [])
  ++ (match page.author with | some a => [("author", a)] | none => [])
  ++ (match page.publishedDate with | some d => [("publishedDate", d)] | none => [])

/-- FirecrawlService.pagesToDocuments lines 186-200. -/
def pagesToDocuments (pages : List ScrapedPage) : List DocumentInput :=
  pages.map (fun page =>
    { content := page.title ++ "\n\n" ++ page.content,
      metadata := some (pageMetadata page),
      source := some page.url })

/-- RagAgent.indexWebsite lines 751-772: crawl, convert, addDocuments,
return { documentIds, pageCount }. -/
def indexWebsite (web : Web) (fuel : Nat)
    (provider : String → Except String EmbeddingResult) (db : DBState)
    (crawler : CrawlerState) (url : String) (options : ScrapeOptions) :
    Except String (List Nat × Nat) × DBState × CrawlerState :=
  let pages := (crawlWebsite web fuel url options crawler).1
  let crawler' := (crawlWebsite web fuel url options crawler).2
  let documents := pagesToDocuments pages
  let r := addDocuments provider db documents
  match r.1 with
  | Except.ok ids => (Except.ok (ids, pages.length), r.2, crawler')
  | Except.error e => (Except.error e, r.2, crawler')

/-- Modelled from the spec: the context formatter of spec section 4.2 step
4, matches joined in rank order as "[i] content" plus the optional source
suffix, with an empty join for zero matches.  Stated independently of
buildContext so the two can be compared. -/
def specFormatFrom : Nat → List SimilarityResult → List String
  | _, [] => []
  | i, r :: rs =>
    ("[" ++ toString i ++ "] " ++ r.content ++ sourceTag r.source) :: specFormatFrom (i + 1) rs

/-- Modelled from the spec: context = join of the rank-ordered blocks. -/
def specContextJoin (results : List SimilarityResult) : String :=
  String.intercalate "\n\n" (specFormatFrom 1 results)

/-! Concrete fixtures used by witnesses and counterexamples. -/

/-- A two-page site at host a: the root links to a same-host page and to an
external host c. -/
def pageA : ScrapedPage :=
  { url := "http://a/", title := "A", content := "root page body",
    links := ["http://a/b", "http://c/"] }

/-- The same-host child page, with no outbound links. -/
def pageB : ScrapedPage :=
  { url := "http://a/b", title := "B", content := "child page body" }

/-- A page living on the external host c; present in the world so that not
fetching it is the crawler's doing. -/
def pageC : ScrapedPage :=
  { url := "http://c/", title := "C", content := "external page body" }

/-- scrapePage outcomes for the fixture site. -/
def pagesFn : String → Option ScrapedPage := fun u =>
  if u = "http://a/" then some pageA
  else if u = "http://a/b" then some pageB
  else if u = "http://c/" then some pageC
  else none

/-- URL hostnames for the fixture site. -/
def hostFn : String → Option String := fun u =>
  if u = "http://a/" then some "a"
  else if u = "http://a/b" then some "a"
  else if u = "http://c/" then some "c"
  else none

/-- The fixture web. -/
def W : Web where
  pages := pagesFn
  hostOf := hostFn
  url_wf := by
    intro u p h
    unfold pagesFn at h
    split at h
    · cases h; simp_all [pageA]
    · split at h
      · cases h; simp_all [pageB]
      · split at h
        · cases h; simp_all [pageC]
        · cases h
  fetch_wf := by
    intro u p h
    unfold pagesFn at h
    split at h
    · subst_vars; decide
    · split at h
      · subst_vars; decide
      · split at h
        · subst_vars; decide
        · cases h

/-- A world in which every fetch fails and no URL parses: the habitat of a
malformed seed. -/
def Wbad : Web where
  pages := fun _ => none
  hostOf := fun _ => none
  url_wf := by intro u p h; cases h
  fetch_wf := by intro u p h; cases h

/-- A provider that always fails. -/
def env0 : RagEnv :=
  { provider := fun _ => Except.error "provider down",
    searchSimilar := fun _ _ _ => [] }

/-- A provider returning a fixed one-dimensional vector; the store finds
nothing. -/
def env1 : RagEnv :=
  { provider := fun _ => Except.ok { embedding := [1], dimensions := 1, model := "m" },
    searchSimilar := fun _ _ _ => [] }

/-- A fixture match with a source URL. -/
def m1 : SimilarityResult :=
  { id := 1, content := "one", source := some "s1", similarity := 9/10, distance := 1/10 }

/-- A fixture match without a source URL. -/
def m2 : SimilarityResult :=
  { id := 2, content := "two", similarity := 1/2, distance := 1/2 }

/-- A provider returning a fixed vector; the store answers with two
matches. -/
def env2 : RagEnv :=
  { provider := fun _ => Except.ok { embedding := [1], dimensions := 1, model := "m" },
    searchSimilar := fun _ _ _ => [m1, m2] }

/-- A provider good on every text, for the ingest fixtures. -/
def provider0 : String → Except String EmbeddingResult :=
  fun _ => Except.ok { embedding := [1], dimensions := 1, model := "m" }

/-- An empty vector store whose SERIAL counter starts at 1. -/
def db0 : DBState := { nextId := 1, documents := [], embeddings := [] }

/-- A two-document ingest batch. -/
def docs0 : List DocumentInput :=
  [{ content := "alpha" }, { content := "beta" }]

/-- The cached answer of the fixture query "q" with topK 2 on env1. -/
def result0 : RagQueryResult :=
  { query := "q", results := [], context := "No relevant context found.", citations := [],
    metadata := { totalResults := 0, averageSimilarity := 0, queryEmbeddingDimensions := 1 } }

/-- The assembled answer of the fixture query on env2: two matches with
similarities 9/10 and 1/2, mean 7/10. -/
def v2 : RagQueryResult :=
  { query := "q", results := [m1, m2], context := "[1] one [Source: s1]\n\n[2] two",
    citations := ["s1"],
    metadata := { totalResults := 2, averageSimilarity := 7/10, queryEmbeddingDimensions := 1 } }

/-- The store state after the fixture two-document ingest. -/
def dbA : DBState := (addDocuments provider0 db0 docs0).2

/-! Helper lemmas about the crawl loop. -/

/-- An exhausted queue leaves results and visited set unchanged. -/
lemma crawlLoopD_nil (web : Web) (maxDepth maxPages : Nat) (inc exc : List String) :
    ∀ fuel visited results,
      crawlLoopD web maxDepth maxPages inc exc fuel [] visited results = (results, visited) := by
  intro fuel visited results
  cases fuel <;> rfl

/-- The emitted-page list never outgrows maxPages. -/
lemma crawlLoopD_length (web : Web) (maxDepth maxPages : Nat) (inc exc : List String) :
    ∀ fuel queue visited results, results.length ≤ maxPages →
      (crawlLoopD web maxDepth maxPages inc exc fuel queue visited results).1.length ≤ maxPages := by
  intro fuel
  induction fuel with
  | zero => intro queue visited results h; simpa [crawlLoopD] using h
  | succ f ih =>
    intro queue visited results h
    match queue with
    | [] => simpa [crawlLoopD] using h
    | t :: rest =>
      simp only [crawlLoopD]
      split
      · split
        · exact ih _ _ _ h
        · split
          · exact ih _ _ _ h
          · split
            · exact ih _ _ _ h
            · split
              · exact ih _ _ _ h
              · cases hp : web.pages t.url with
                | none => exact ih _ _ _ h
                | some page =>
                  refine ih _ _ _ ?_
                  simp only [List.length_append, List.length_cons, List.length_nil]
                  omega
      · simpa using h

/-- Every page in the output carries the depth of the task it was dequeued
with, and the depth guard admits only depths at most maxDepth. -/
lemma crawlLoopD_depth (web : Web) (maxDepth maxPages : Nat) (inc exc : List String) :
    ∀ fuel queue visited results, (∀ dp ∈ results, dp.1 ≤ maxDepth) →
      ∀ dp ∈ (crawlLoopD web maxDepth maxPages inc exc fuel queue visited results).1,
        dp.1 ≤ maxDepth := by
  intro fuel
  induction fuel with
  | zero => intro queue visited results h; simpa [crawlLoopD] using h
  | succ f ih =>
    intro queue visited results h
    match queue with
    | [] => simpa [crawlLoopD] using h
    | t :: rest =>
      simp only [crawlLoopD]
      split
      · split
        · exact ih _ _ _ h
        · split
          · exact ih _ _ _ h
          · split
            · exact ih _ _ _ h
            · split
              · exact ih _ _ _ h
              · cases hp : web.pages t.url with
                | none => exact ih _ _ _ h
                | some page =>
                  refine ih _ _ _ ?_
                  intro dp hdp
                  rcases List.mem_append.mp hdp with hin | hnew
                  · exact h dp hin
                  · rcases List.mem_singleton.mp hnew with rfl
                    rename_i hdepth _
                    omega
      · simpa using h

/-- Links selected for the queue share the current page's hostname. -/
lemma sameHostLinks_host (web : Web) (url : String) (links : List String) :
    ∀ l ∈ sameHostLinks web url links, web.hostOf l = web.hostOf url := by
  intro l hl
  unfold sameHostLinks at hl
  split at hl
  · cases hl
  · rename_i h hh
    rw [hh]
    have := (List.mem_filter.mp hl).2
    simpa using this

/-- Hostname invariant of the crawl loop: if every queued task, every
emitted page and every visited URL shares one hostname value hh, the final
pages and visited set do too. -/
lemma crawlLoopD_host (web : Web) (maxDepth maxPages : Nat) (inc exc : List String)
    (hh : Option String) :
    ∀ fuel queue visited results,
      (∀ t ∈ queue, web.hostOf t.url = hh) →
      (∀ dp ∈ results, web.hostOf (Prod.snd dp).url = hh) →
      (∀ u ∈ visited, web.hostOf u = hh) →
      (∀ dp ∈ (crawlLoopD web maxDepth maxPages inc exc fuel queue visited results).1,
          web.hostOf (Prod.snd dp).url = hh) ∧
      (∀ u ∈ (crawlLoopD web maxDepth maxPages inc exc fuel queue visited results).2,
          web.hostOf u = hh) := by
  intro fuel
  induction fuel with
  | zero =>
    intro queue visited results _ hr hv
    exact ⟨by simpa [crawlLoopD] using hr, by simpa [crawlLoopD] using hv⟩
  | succ f ih =>
    intro queue visited results hq hr hv
    match queue with
    | [] =>
      exact ⟨by simpa [crawlLoopD] using hr, by simpa [crawlLoopD] using hv⟩
    | t :: rest =>
      have hqrest : ∀ t' ∈ rest, web.hostOf t'.url = hh := by
        intro t' ht'; exact hq t' (List.mem_cons_of_mem _ ht')
      have hqt : web.hostOf t.url = hh := hq t (List.mem_cons_self _ _)
      simp only [crawlLoopD]
      split
      · split
        · exact ih _ _ _ hqrest hr hv
        · split
          · exact ih _ _ _ hqrest hr hv
          · split
            · exact ih _ _ _ hqrest hr hv
            · split
              · exact ih _ _ _ hqrest hr hv
              · have hv' : ∀ u ∈ t.url :: visited, web.hostOf u = hh := by
                  intro u hu
                  rcases List.mem_cons.mp hu with rfl | hu
                  · exact hqt
                  · exact hv u hu
                cases hp : web.pages t.url with
                | none => exact ih _ _ _ hqrest hr hv'
                | some page =>
                  have hpageurl : page.url = t.url := web.url_wf t.url page hp
                  have hr' : ∀ dp ∈ results ++ [(t.depth, page)],
                      web.hostOf (Prod.snd dp).url = hh := by
                    intro dp hdp
                    rcases List.mem_append.mp hdp with hin | hnew
                    · exact hr dp hin
                    · rcases List.mem_singleton.mp hnew with rfl
                      simpa [hpageurl] using hqt
                  have hq' : ∀ t' ∈ (if t.depth < maxDepth then
                      rest ++ (sameHostLinks web t.url page.links).map
                        (fun l => CrawlTask.mk l (t.depth + 1))
                      else rest), web.hostOf t'.url = hh := by
                    split
                    · intro t' ht'
                      rcases List.mem_append.mp ht' with hin | hnew
                      · exact hqrest t' hin
                      · rcases List.mem_map.mp hnew with ⟨l, hl, rfl⟩
                        have := sameHostLinks_host web t.url page.links l hl
                        simpa [this] using hqt
                    · exact hqrest
                  exact ih _ _ _ hq' hr' hv'
      · exact ⟨by simpa using hr, by simpa using hv⟩

/-- The reduce-based sum of RagAgent.query as a List.sum. -/
lemma foldl_add_similarity (l : List SimilarityResult) :
    ∀ a : ℚ, l.foldl (fun s r => s + r.similarity) a
      = a + (l.map (fun r => r.similarity)).sum := by
  induction l with
  | nil => intro a; simp
  | cons x xs ih => intro a; simp [ih, add_assoc]

/-- Stripping match metadata does not change the similarity values. -/
lemma map_strip_similarity (l : List SimilarityResult) :
    (l.map (fun r => ({ r with metadata := none } : SimilarityResult))).map
        (fun r => r.similarity)
      = l.map (fun r => r.similarity) := by
  simp [List.map_map]

/-- The enumerate-from-n map of buildContext equals the rank formatter of
the spec starting at rank n+1. -/
lemma enumFrom_map_format (n : Nat) (l : List SimilarityResult) :
    (List.enumFrom n l).map (fun ir =>
        "[" ++ toString (ir.1 + 1) ++ "] " ++ ir.2.content ++ sourceTag ir.2.source)
      = specFormatFrom (n + 1) l := by
  induction l generalizing n with
  | nil => rfl
  | cons x xs ih => simp [List.enumFrom, specFormatFrom, ih]

/-- generateEmbeddings returns exactly one embedding per text: the
justification for the source's embeddings[index] non-null assertion. -/
lemma embedEach_length (provider : String → Except String EmbeddingResult) :
    ∀ (texts : List String) (es : List EmbeddingResult),
      embedEach provider texts = Except.ok es → es.length = texts.length := by
  intro texts
  induction texts with
  | nil =>
    intro es h
    simp only [embedEach, Except.ok.injEq] at h
    subst h; rfl
  | cons t ts ih =>
    intro es h
    simp only [embedEach] at h
    cases h1 : generateEmbedding provider t with
    | error e => simp [h1] at h
    | ok r =>
      simp only [h1] at h
      cases h2 : embedEach provider ts with
      | error e => simp [h2] at h
      | ok rs =>
        simp only [h2, Except.ok.injEq] at h
        subst h
        simp [ih rs h2]

/-- The positional pairing of documents with their embeddings preserves the
contents in input order. -/
lemma zipWith_content : ∀ (docs : List DocumentInput) (es : List EmbeddingResult),
    es.length = docs.length →
    (List.zipWith (fun (doc : DocumentInput) (er : EmbeddingResult) =>
        ({ content := doc.content, embedding := er.embedding,
           metadata := doc.metadata, source := doc.source } : DocumentWithEmbedding))
      docs es).map (fun d => d.content) = docs.map (fun d => d.content) := by
  intro docs
  induction docs with
  | nil => intro es h; simp
  | cons d ds ih =>
    intro es h
    cases es with
    | nil => simp at h
    | cons e es' =>
      simp only [List.length_cons, Nat.succ.injEq] at h
      simp [ih es' h]

/-- The transactional insert loop: one id per input, ids in input order,
and the documents table grows by exactly the batch, in order. -/
lemma batchInsertDocuments_spec :
    ∀ (docs : List DocumentWithEmbedding) (db : DBState),
      (batchInsertDocuments db docs).1.length = docs.length ∧
      ∃ newDocs : List StoredDocument,
        (batchInsertDocuments db docs).2.documents = db.documents ++ newDocs ∧
        newDocs.map (fun d => d.id) = (batchInsertDocuments db docs).1 ∧
        newDocs.map (fun d => d.content) = docs.map (fun d => d.content) := by
  intro docs
  induction docs with
  | nil => intro db; exact ⟨rfl, [], by simp [batchInsertDocuments], rfl, rfl⟩
  | cons doc rest ih =>
    intro db
    obtain ⟨h1, nd, hdocs, hids, hcont⟩ := ih
      { nextId := db.nextId + 1,
        documents := db.documents ++ [mkStoredDocument db.nextId doc],
        embeddings := db.embeddings ++ [StoredEmbedding.mk db.nextId doc.embedding] }
    refine ⟨?_, mkStoredDocument db.nextId doc :: nd, ?_, ?_, ?_⟩
    · simp [batchInsertDocuments, h1]
    · simp only [batchInsertDocuments]
      rw [hdocs]
      simp
    · simp [batchInsertDocuments, hids, mkStoredDocument]
    · simp [batchInsertDocuments, hcont, mkStoredDocument]

/-! Claim theorems. -/

/-- C1: every crawl run returns at most maxPages pages, the returned pages
are exactly the depth-annotated loop output with the annotation erased, and
no page of that output was dequeued with a CrawlTask depth above
maxDepth. -/
theorem c1_crawl_budget (web : Web) (fuel : Nat) (startUrl : String)
    (options : ScrapeOptions) (st : CrawlerState) :
    (crawlWebsite web fuel startUrl options st).1.length ≤ options.maxPages ∧
    (crawlWebsite web fuel startUrl options st).1 =
      ((crawlLoopD web options.maxDepth options.maxPages options.includePaths
        options.excludePaths fuel [CrawlTask.mk startUrl 0] [] []).1).map Prod.snd ∧
    ∀ dp ∈ (crawlLoopD web options.maxDepth options.maxPages options.includePaths
        options.excludePaths fuel [CrawlTask.mk startUrl 0] [] []).1,
      dp.1 ≤ options.maxDepth := by
  refine ⟨?_, rfl, ?_⟩
  · have h := crawlLoopD_length web options.maxDepth options.maxPages options.includePaths
      options.excludePaths fuel [CrawlTask.mk startUrl 0] [] [] (by simp)
    simpa [crawlWebsite] using h
  · exact crawlLoopD_depth web options.maxDepth options.maxPages options.includePaths
      options.excludePaths fuel [CrawlTask.mk startUrl 0] [] [] (by simp)

/-- Witness for C1 on the fixture site with default budget. -/
theorem c1_crawl_budget_witness :
    (crawlWebsite W 5 "http://a/" {} (CrawlerState.mk [])).1.length ≤ 50 ∧
    ((0 : Nat), pageA).1 ≤ 2 :=
  ⟨(c1_crawl_budget W 5 "http://a/" {} (CrawlerState.mk [])).1,
   (c1_crawl_budget W 5 "http://a/" {} (CrawlerState.mk [])).2.2 ((0 : Nat), pageA) (by decide)⟩

/-- C6: a URL whose hostname differs from the seed's hostname is never
emitted as a page and never enters the visited set (so it is never
fetched), for every crawl run. -/
theorem c6_cross_host_never_fetched (web : Web) (fuel : Nat) (startUrl : String)
    (options : ScrapeOptions) (st : CrawlerState) (l : String)
    (hl : web.hostOf l ≠ web.hostOf startUrl) :
    (∀ p ∈ (crawlWebsite web fuel startUrl options st).1, p.url ≠ l) ∧
    l ∉ (crawlWebsite web fuel startUrl options st).2.visitedUrls := by
  have hmain := crawlLoopD_host web options.maxDepth options.maxPages options.includePaths
    options.excludePaths (web.hostOf startUrl) fuel [CrawlTask.mk startUrl 0] [] []
    (by intro t ht; rcases List.mem_singleton.mp ht with rfl; rfl)
    (by intro dp h; cases h) (by intro u h; cases h)
  constructor
  · intro p hp hpl
    have hp' : p ∈ ((crawlLoopD web options.maxDepth options.maxPages options.includePaths
        options.excludePaths fuel [CrawlTask.mk startUrl 0] [] []).1).map Prod.snd := by
      simpa [crawlWebsite] using hp
    rcases List.mem_map.mp hp' with ⟨dp, hdp, rfl⟩
    have hhost := hmain.1 dp hdp
    rw [hpl] at hhost
    exact hl hhost
  · intro hmem
    have hmem' : l ∈ (crawlLoopD web options.maxDepth options.maxPages options.includePaths
        options.excludePaths fuel [CrawlTask.mk startUrl 0] [] []).2 := by
      simpa [crawlWebsite] using hmem
    exact hl (hmain.2 l hmem')

/-- Witness for C6: the external link of the fixture root is discoverable
yet never fetched or emitted. -/
theorem c6_cross_host_never_fetched_witness :
    W.hostOf "http://c/" ≠ W.hostOf "http://a/" ∧
    ((∀ p ∈ (crawlWebsite W 5 "http://a/" {} (CrawlerState.mk [])).1, p.url ≠ "http://c/") ∧
     "http://c/" ∉ (crawlWebsite W 5 "http://a/" {} (CrawlerState.mk [])).2.visitedUrls) :=
  ⟨by decide,
   c6_cross_host_never_fetched W 5 "http://a/" {} (CrawlerState.mk []) "http://c/" (by decide)⟩

/-- C4 counterexample: with a malformed seed (its fetch fails, its URL does
not parse) crawlWebsite returns normally with an empty page list instead of
failing with an InvalidSeed error; the seed was even attempted (it enters
the visited set before the fetch). -/
theorem c4_counterexample :
    crawlWebsite Wbad 3 "not a url" {} (CrawlerState.mk []) =
      ([], CrawlerState.mk ["not a url"]) := by decide

/-- C4 as amended: crawlWebsite performs no seed validation; a seed whose
fetch fails is marked visited, its failure is swallowed by scrapePage, and
the crawl returns normally with an empty page list (default options). -/
theorem c4_malformed_seed_swallowed (web : Web) (startUrl : String) (st : CrawlerState)
    (fuel : Nat) (hf : 0 < fuel) (hp : web.pages startUrl = none) :
    crawlWebsite web fuel startUrl {} st = ([], CrawlerState.mk [startUrl]) := by
  cases fuel with
  | zero => omega
  | succ f =>
    simp [crawlWebsite, crawlLoopD, hp, crawlLoopD_nil]

/-- Witness for the amended C4. -/
theorem c4_malformed_seed_swallowed_witness :
    0 < 2 ∧ Wbad.pages "::bad::" = none ∧
    crawlWebsite Wbad 2 "::bad::" {} (CrawlerState.mk ["x"]) =
      ([], CrawlerState.mk ["::bad::"]) :=
  ⟨by decide, rfl,
   c4_malformed_seed_swallowed Wbad "::bad::" (CrawlerState.mk ["x"]) 2 (by decide) rfl⟩

/-- C9 counterexample: after crawlWebsite returns, the visited URLs of the
run persist in the service state instead of being discarded. -/
theorem c9_counterexample :
    (crawlWebsite W 5 "http://a/" {} (CrawlerState.mk ["stale"])).2.visitedUrls ≠ [] := by
  decide

/-- C9 as amended: the work queue and result list are locals of one
invocation and the prior contents of the service-level visited set never
influence a crawl (the field is cleared at call start), so the pages and
final state are independent of the prior state; but the final state keeps
exactly this invocation's visited set rather than discarding it. -/
theorem c9_visited_scoping (web : Web) (fuel : Nat) (url : String)
    (options : ScrapeOptions) (st st' : CrawlerState) :
    crawlWebsite web fuel url options st = crawlWebsite web fuel url options st' ∧
    (crawlWebsite web fuel url options st).2.visitedUrls =
      (crawlLoopD web options.maxDepth options.maxPages options.includePaths
        options.excludePaths fuel [CrawlTask.mk url 0] [] []).2 :=
  ⟨rfl, rfl⟩

/-- C2: the cache key depends on (queryText, topK) only, so after any
successful query a second call with the same text and topK — any
similarityThreshold, any includeMetadata — hits the cache and returns the
stored result unchanged, performing only the one cache lookup (no
re-embedding, no new search, no re-filtering). -/
theorem c2_cache_ignores_threshold (env : RagEnv) (cache : Cache) (text : String)
    (topK : Nat) (t1 t2 : ℚ) (im1 im2 : Bool) (v : RagQueryResult) (c1 : Cache)
    (tr1 : List QueryEvent)
    (h : query env cache text
        { topK := topK, similarityThreshold := t1, includeMetadata := im1 }
        = (Except.ok v, c1, tr1)) :
    query env c1 text { topK := topK, similarityThreshold := t2, includeMetadata := im2 }
      = (Except.ok v, c1,
         [QueryEvent.cacheGet (generateKey "query" [text, toString topK])]) := by
  have hc1 : c1.lookup (generateKey "query" [text, toString topK]) = some v := by
    simp only [query] at h
    cases hc : List.lookup (generateKey "query" [text, toString topK]) cache with
    | some cached =>
      simp only [hc, Prod.mk.injEq, Except.ok.injEq] at h
      obtain ⟨hv, hcache, -⟩ := h
      subst hv; subst hcache
      exact hc
    | none =>
      simp only [hc] at h
      cases hg : generateEmbedding env.provider text with
      | error e => simp [hg] at h
      | ok er =>
        simp only [hg, Prod.mk.injEq, Except.ok.injEq] at h
        obtain ⟨hv, hcache, -⟩ := h
        subst hv; subst hcache
        simp [List.lookup]
  simp only [query, hc1]

/-- Witness for C2: a first call at threshold 7/10 warms the cache; the
second call at threshold 1/2 returns the identical stored result off the
cache. -/
theorem c2_cache_ignores_threshold_witness :
    query env1 [("rag:query:q:2", result0)] "q"
        { topK := 2, similarityThreshold := 1/2, includeMetadata := true }
      = (Except.ok result0, [("rag:query:q:2", result0)],
         [QueryEvent.cacheGet "rag:query:q:2"]) :=
  c2_cache_ignores_threshold env1 [] "q" 2 (7/10) (1/2) true true result0
    [("rag:query:q:2", result0)]
    [QueryEvent.cacheGet "rag:query:q:2", QueryEvent.embed "q",
     QueryEvent.search 2 (7/10), QueryEvent.cacheSet "rag:query:q:2"] (by rfl)

/-- C3 counterexample: for the empty query the cache is consulted first —
the I/O trace of the run contains a cache GET — so the rejection does not
happen before all I/O, contrary to the claim. -/
theorem c3_counterexample :
    (query env0 [] "" {}).1 = Except.error "RAG query failed: Text cannot be empty" ∧
    (query env0 [] "" {}).2.2 = [QueryEvent.cacheGet "rag:query::5"] := by
  exact ⟨rfl, rfl⟩

/-- C3 as amended: a blank query is rejected with the InvalidQuery error
before any embedding-provider or vector-store call, but after the cache
lookup, which always runs first (the conclusion shows the full trace is the
single cache GET); on a cache hit at that key the stored value would be
returned without any validation. -/
theorem c3_empty_query_after_cache (env : RagEnv) (cache : Cache)
    (options : RagQueryOptions) (text : String) (hb : isBlank text = true)
    (hm : cache.lookup (generateKey "query" [text, toString options.topK]) = none) :
    query env cache text options =
      (Except.error "RAG query failed: Text cannot be empty", cache,
       [QueryEvent.cacheGet (generateKey "query" [text, toString options.topK])]) := by
  simp [query, hm, generateEmbedding, hb]

/-- Witness for the amended C3 on a whitespace-only query. -/
theorem c3_empty_query_after_cache_witness :
    isBlank " " = true ∧
    query env0 [] " " {} =
      (Except.error "RAG query failed: Text cannot be empty", ([] : Cache),
       [QueryEvent.cacheGet "rag:query: :5"]) :=
  ⟨by decide, c3_empty_query_after_cache env0 [] {} " " (by decide) rfl⟩

/-- C7: on the computing (cache-miss) path, the reported averageSimilarity
is 0 for zero matches and the arithmetic mean of the matches' similarity
values otherwise. -/
theorem c7_average_similarity (env : RagEnv) (cache : Cache) (text : String)
    (options : RagQueryOptions) (v : RagQueryResult) (c' : Cache) (tr : List QueryEvent)
    (hm : cache.lookup (generateKey "query" [text, toString options.topK]) = none)
    (h : query env cache text options = (Except.ok v, c', tr)) :
    (v.results = [] → v.metadata.averageSimilarity = 0) ∧
    (v.results ≠ [] →
      v.metadata.averageSimilarity
        = (v.results.map (fun r => r.similarity)).sum / (v.results.length : ℚ)) := by
  simp only [query, hm] at h
  cases hg : generateEmbedding env.provider text with
  | error e => simp [hg] at h
  | ok er =>
    simp only [hg, Prod.mk.injEq, Except.ok.injEq] at h
    obtain ⟨hv, -, -⟩ := h
    subst hv
    by_cases hres : env.searchSimilar er.embedding options.topK options.similarityThreshold = []
    · constructor
      · intro _
        simp [hres]
      · intro hne
        exfalso
        apply hne
        cases options.includeMetadata <;> simp [hres]
    · have hlen : 0 < (env.searchSimilar er.embedding options.topK
          options.similarityThreshold).length := List.length_pos.mpr hres
      constructor
      · intro hnil
        exfalso
        apply hres
        cases him : options.includeMetadata <;> simp [him] at hnil <;> simp [hnil]
      · intro _
        cases him : options.includeMetadata
        · simp [him, hlen, foldl_add_similarity, List.map_map]
          rfl
        · simp [him, hlen, foldl_add_similarity, List.map_map]

/-- Witness for C7 on a two-match query. -/
theorem c7_average_similarity_witness :
    (v2.results = [] → v2.metadata.averageSimilarity = 0) ∧
    (v2.results ≠ [] →
      v2.metadata.averageSimilarity
        = (v2.results.map (fun r => r.similarity)).sum / (v2.results.length : ℚ)) :=
  c7_average_similarity env2 [] "q" {} v2 [("rag:query:q:5", v2)]
    [QueryEvent.cacheGet "rag:query:q:5", QueryEvent.embed "q",
     QueryEvent.search 5 (7/10), QueryEvent.cacheSet "rag:query:q:5"] rfl
    (by simp only [query, env2, generateEmbedding, isBlank, generateKey, buildContext,
          extractCitations, uniqueFirst, sourceTag, v2, m1, m2]
        norm_num
        rfl)

/-- C8 counterexample: for zero matches buildContext returns the fixed
placeholder string, not the empty join of the spec's formatting rule. -/
theorem c8_counterexample :
    buildContext [] = "No relevant context found." ∧ buildContext [] ≠ specContextJoin [] := by
  exact ⟨rfl, by decide⟩

/-- C8 as amended: for one or more matches the context is exactly the
spec's join — blocks "[i] content" with the optional source suffix, joined
in rank order — but for zero matches the code returns the placeholder
'No relevant context found.' instead of the empty join. -/
theorem c8_context_join (results : List SimilarityResult) (hne : results ≠ []) :
    buildContext results = specContextJoin results := by
  unfold buildContext specContextJoin
  rw [if_neg (by simpa using hne)]
  rw [show results.enum = List.enumFrom 0 results from rfl]
  rw [enumFrom_map_format 0 results]

/-- Witness for the amended C8 on a one-match list. -/
theorem c8_context_join_witness :
    buildContext [m1] = specContextJoin [m1] :=
  c8_context_join [m1] (by simp)

/-- C5: a successful addDocuments returns exactly one id per input
document, the documents enter the store in input order under those ids
(the id at index i belongs to the document at index i), and on an
embedding failure the whole batch aborts with the error and the store is
left untouched. -/
theorem c5_addDocuments_batch (provider : String → Except String EmbeddingResult)
    (db : DBState) (documents : List DocumentInput) :
    (∀ ids db', addDocuments provider db documents = (Except.ok ids, db') →
      ids.length = documents.length ∧
      ∃ newDocs : List StoredDocument,
        db'.documents = db.documents ++ newDocs ∧
        newDocs.map (fun d => d.id) = ids ∧
        newDocs.map (fun d => d.content) = documents.map (fun d => d.content)) ∧
    (∀ e db', addDocuments provider db documents = (Except.error e, db') → db' = db) := by
  constructor
  · intro ids db' h
    simp only [addDocuments] at h
    cases hg : generateEmbeddings provider (documents.map (fun d => d.content)) with
    | error e => simp [hg] at h
    | ok es =>
      simp only [hg, Prod.mk.injEq, Except.ok.injEq] at h
      obtain ⟨hids, hdb⟩ := h
      subst hids; subst hdb
      have hlen : es.length = documents.length := by
        simp only [generateEmbeddings] at hg
        split at hg
        · cases hg
        · simpa using embedEach_length provider (documents.map (fun d => d.content)) es hg
      obtain ⟨h1, nd, hdocs, hid2, hcont⟩ := batchInsertDocuments_spec
        (List.zipWith (fun (doc : DocumentInput) (er : EmbeddingResult) =>
          ({ content := doc.content, embedding := er.embedding,
             metadata := doc.metadata, source := doc.source } : DocumentWithEmbedding))
          documents es) db
      refine ⟨?_, nd, hdocs, hid2, ?_⟩
      · rw [h1, List.length_zipWith, hlen, Nat.min_self]
      · rw [hcont, zipWith_content documents es hlen]
  · intro e db' h
    simp only [addDocuments] at h
    cases hg : generateEmbeddings provider (documents.map (fun d => d.content)) with
    | error e2 =>
      simp only [hg, Prod.mk.injEq, Except.error.injEq] at h
      exact h.2.symm
    | ok es => simp [hg] at h

/-- Witness for C5: ingesting the two fixture documents yields ids 1 and 2
in input order. -/
theorem c5_addDocuments_batch_witness :
    ([1, 2] : List Nat).length = docs0.length ∧
    ∃ newDocs : List StoredDocument,
      dbA.documents = db0.documents ++ newDocs ∧
      newDocs.map (fun d => d.id) = [1, 2] ∧
      newDocs.map (fun d => d.content) = docs0.map (fun d => d.content) :=
  (c5_addDocuments_batch provider0 db0 docs0).1 [1, 2] dbA rfl

/-- C10: addDocuments always rejects an empty batch — generateEmbeddings
raises 'Texts array cannot be empty' before either provider runs — leaving
the store untouched; consequently indexWebsite fails with that error
whenever the crawl emits zero pages, instead of returning an empty id
list. -/
theorem c10_empty_batch :
    (∀ (provider : String → Except String EmbeddingResult) (db : DBState),
      addDocuments provider db [] = (Except.error "Texts array cannot be empty", db)) ∧
    (∀ (web : Web) (fuel : Nat) (provider : String → Except String EmbeddingResult)
       (db : DBState) (crawler : CrawlerState) (url : String) (options : ScrapeOptions),
      (crawlWebsite web fuel url options crawler).1 = [] →
      (indexWebsite web fuel provider db crawler url options).1
        = Except.error "Texts array cannot be empty") := by
  constructor
  · intro provider db
    simp [addDocuments, generateEmbeddings]
  · intro web fuel provider db crawler url options h
    simp [indexWebsite, h, pagesToDocuments, addDocuments, generateEmbeddings]

/-- Witness for C10: the crawl of the dead fixture web emits zero pages and
indexWebsite rejects. -/
theorem c10_empty_batch_witness :
    addDocuments provider0 db0 [] = (Except.error "Texts array cannot be empty", db0) ∧
    (indexWebsite Wbad 3 provider0 db0 (CrawlerState.mk []) "bad url" {}).1
      = Except.error "Texts array cannot be empty" :=
  ⟨c10_empty_batch.1 provider0 db0,
   c10_empty_batch.2 Wbad 3 provider0 db0 (CrawlerState.mk []) "bad url" {} (by decide)⟩

end RagMcp

